import Mathlib

/-
Verification of the blotter record-management application core: the
spreadsheet import pipeline (column-name normalization, serial-date
conversion, required-column validation), the sign-out flow, the record
update and delete operations, and the search and pagination logic.
Each definition is a shallow embedding of the corresponding TypeScript
function. JS numbers that hold spreadsheet serials or row ids are
modelled as Int, JS objects as association lists from string keys to
cell values, and the JS Date arithmetic is carried out in UTC (the
local time zone of the runtime is taken to be UTC, matching the epoch
convention stated by the specification).
-/

/-- Value stored in a parsed spreadsheet cell or a table-row field.
The import code branches on typeof value being number, so the
embedding distinguishes numeric cells from string cells. -/
inductive CellValue where
  | num : Int → CellValue
  | str : String → CellValue
deriving DecidableEq

/-- Row of a parsed worksheet or of the remote table, as the JS object
keyed by column name that sheet_to_json and the store client use. -/
abbrev Row := List (String × CellValue)

/-- Decimal digit character for a value below ten. -/
def digitChar (n : Nat) : Char :=
  if n = 0 then '0' else if n = 1 then '1' else if n = 2 then '2'
  else if n = 3 then '3' else if n = 4 then '4' else if n = 5 then '5'
  else if n = 6 then '6' else if n = 7 then '7' else if n = 8 then '8' else '9'

/-- Four-digit zero-padded decimal rendering, for the year field of an
ISO date string. -/
def pad4 (n : Nat) : List Char :=
  [digitChar (n / 1000 % 10), digitChar (n / 100 % 10),
   digitChar (n / 10 % 10), digitChar (n % 10)]

/-- Two-digit zero-padded decimal rendering, for the month and day
fields of an ISO date string. -/
def pad2 (n : Nat) : List Char :=
  [digitChar (n / 10 % 10), digitChar (n % 10)]

/-- ISO YYYY-MM-DD rendering of a proleptic Gregorian calendar date,
as produced by the date part of Date.toISOString for the years the
serial encoding covers. -/
def isoOfCivil : Int × Nat × Nat → String
  | (y, m, d) => String.mk (pad4 y.toNat ++ ('-' :: pad2 m) ++ ('-' :: pad2 d))

/-- Day count of a proleptic Gregorian date, measured from the Unix
epoch 1970-01-01 (negative before it). -/
def daysFromCivil (y : Int) (m d : Nat) : Int :=
  let y2 : Int := if m ≤ 2 then y - 1 else y
  let era : Int := (if 0 ≤ y2 then y2 else y2 - 399) / 400
  let yoe : Nat := (y2 - era * 400).toNat
  let mp : Nat := (m + 9) % 12
  let doy : Nat := (153 * mp + 2) / 5 + d - 1
  let doe : Nat := yoe * 365 + yoe / 4 - yoe / 100 + doy
  era * 146097 + (doe : Int) - 719468

/-- Proleptic Gregorian date of a day count measured from the Unix
epoch 1970-01-01; the inverse of daysFromCivil. -/
def civilFromDays (z0 : Int) : Int × Nat × Nat :=
  let z : Int := z0 + 719468
  let era : Int := (if 0 ≤ z then z else z - 146096) / 146097
  let doe : Nat := (z - era * 146097).toNat
  let yoe : Nat := (doe - doe / 1460 + doe / 36524 - doe / 146096) / 365
  let y : Int := (yoe : Int) + era * 400
  let doy : Nat := doe - (365 * yoe + yoe / 4 - yoe / 100)
  let mp : Nat := (5 * doy + 2) / 153
  let d : Nat := doy - (153 * mp + 2) / 5 + 1
  let m : Nat := if mp < 10 then mp + 3 else mp - 9
  (if m ≤ 2 then y + 1 else y, m, d)

/-- Milliseconds per day, the 24 * 60 * 60 * 1000 factor of the source. -/
def msPerDay : Int := 86400000

/-- Millisecond timestamp of new Date(1900, 0, 1): midnight 1900-01-01
(UTC), the excelEpoch constant of handleFileUpload. -/
def excelEpochMs : Int := -2208988800000

/-- Conversion of a spreadsheet serial date to an ISO string exactly as
handleFileUpload computes it: milliseconds of the 1900 epoch plus
(value - 2) days, then the date part of toISOString, which is the
floor-day of the timestamp rendered as YYYY-MM-DD. -/
def codeSerialISO (v : Int) : String :=
  isoOfCivil (civilFromDays ((excelEpochMs + (v - 2) * msPerDay) / msPerDay))

/-- Serial-date conversion as the specification words it: from the
1900-01-01 epoch, add (v - 2) calendar days, output ISO YYYY-MM-DD. -/
def specSerialISO (v : Int) : String :=
  isoOfCivil (civilFromDays (daysFromCivil 1900 1 1 + (v - 2)))

/-- Whitespace test used when trimming header keys. -/
def isWS (c : Char) : Bool :=
  c == ' ' || c == '\t' || c == '\n' || c == '\r'

/-- Surrounding-whitespace removal on a character list, the behaviour
of String.trim on header keys. -/
def trimChars (l : List Char) : List Char :=
  ((l.dropWhile isWS).reverse.dropWhile isWS).reverse

/-- Header-key normalization of handleFileUpload: trim surrounding
whitespace, then lowercase. -/
def normalizeKey (k : String) : String :=
  String.mk ((trimChars k.data).map Char.toLower)

/-- Assignment of a key on a JS object modelled as an association
list: replaces the binding when the key is present, appends otherwise. -/
def setKey : Row → String → CellValue → Row
  | [], k, v => [(k, v)]
  | (k0, v0) :: rest, k, v =>
      if k0 = k then (k, v) :: rest else (k0, v0) :: setKey rest k v

/-- Property read on a JS object modelled as an association list. -/
def lookupKey : Row → String → Option CellValue
  | [], _ => none
  | (k0, v0) :: rest, k => if k0 = k then some v0 else lookupKey rest k

/-- Membership test of the in operator on a JS object. -/
def hasKey (r : Row) (k : String) : Bool :=
  (lookupKey r k).isSome

/-- Per-cell conversion of handleFileUpload: when the normalized key is
date and the value is numeric, replace it by the serial-date ISO
string; every other value passes through unchanged. -/
def convertCell (nk : String) (v : CellValue) : CellValue :=
  match v with
  | CellValue.num n => if nk = "date" then CellValue.str (codeSerialISO n) else CellValue.num n
  | CellValue.str s => CellValue.str s

/-- Row normalization of handleFileUpload: build a fresh object whose
keys are the normalized keys and whose values are the converted cell
values, assigning in source order. -/
def normalizeRow (row : Row) : Row :=
  row.foldl
    (fun acc kv => setKey acc (normalizeKey kv.1) (convertCell (normalizeKey kv.1) kv.2)) []

/-- Import row of the specification test vector, with serial date 45292. -/
def sampleImportRow : Row :=
  [("first_name", CellValue.str "A"), ("last_name", CellValue.str "B"),
   ("case_type", CellValue.str "Theft"), ("date", CellValue.num 45292),
   ("blotter_entry", CellValue.str "x")]

/-- Day-count argument fed to the calendar conversion by the code path
equals the one the specification describes. -/
theorem serial_day_eq (v : Int) :
    (excelEpochMs + (v - 2) * msPerDay) / msPerDay = daysFromCivil 1900 1 1 + (v - 2) := by
  have h1 : daysFromCivil 1900 1 1 = -25567 := by decide
  have h2 : excelEpochMs + (v - 2) * msPerDay = (-25567 + (v - 2)) * msPerDay := by
    show (-2208988800000 : Int) + (v - 2) * 86400000 = (-25567 + (v - 2)) * 86400000
    ring
  rw [h2, Int.mul_ediv_cancel _ (by decide : (msPerDay : Int) ≠ 0), h1]

/-- Claim C1: a numeric date cell with serial value v is normalized to
the ISO string of the calendar date reached from the 1900-01-01 epoch
by adding (v - 2) days; non-numeric date cells pass through unchanged;
and the specification test row with serial 45292 normalizes to a
stored date of 2024-01-01. -/
theorem import_date_normalization :
    (∀ v : Int, convertCell "date" (CellValue.num v) = CellValue.str (specSerialISO v))
    ∧ (∀ s : String, convertCell "date" (CellValue.str s) = CellValue.str s)
    ∧ normalizeRow sampleImportRow =
        [("first_name", CellValue.str "A"), ("last_name", CellValue.str "B"),
         ("case_type", CellValue.str "Theft"), ("date", CellValue.str "2024-01-01"),
         ("blotter_entry", CellValue.str "x")] := by
  refine ⟨fun v => ?_, fun s => rfl, by decide⟩
  have h : codeSerialISO v = specSerialISO v := by
    unfold codeSerialISO specSerialISO
    rw [serial_day_eq]
  simp [convertCell, h]

/-- Outcome of one run of the import pipeline: a caught exception
reported as a file-processing error, an abort naming the missing
required columns, or a batch insert of the normalized rows. -/
inductive ImportOutcome where
  | processError : ImportOutcome
  | missingColumns : List String → ImportOutcome
  | inserted : List Row → ImportOutcome
deriving DecidableEq

/-- Required header columns checked by handleFileUpload. -/
def requiredColumns : List String :=
  ["blotter_entry", "first_name", "last_name", "case_type", "date"]

/-- Import pipeline of handleFileUpload after parsing: normalize every
row, read the first normalized row, list the required columns absent
from it, abort with that list when it is nonempty, and otherwise batch
insert all normalized rows. On an empty sheet the first row is
undefined, so the membership test of the in operator throws a
TypeError which the surrounding catch reports as a file-processing
error. -/
def importProcess (jsonData : List Row) : ImportOutcome :=
  match jsonData.map normalizeRow with
  | [] => ImportOutcome.processError
  | firstRow :: rest =>
    let missing := requiredColumns.filter (fun c => !(hasKey firstRow c))
    if missing.isEmpty then ImportOutcome.inserted (firstRow :: rest)
    else ImportOutcome.missingColumns missing

/-- Rows an import outcome actually inserts into the store. -/
def insertedRows : ImportOutcome → List Row
  | ImportOutcome.inserted rs => rs
  | _ => []

/-- Claim C2: the required-column check reads only the first parsed
row after normalization; when no required column is missing there the
pipeline inserts every normalized row in one batch, and when some are
missing it aborts naming exactly the missing columns and inserts
nothing. -/
theorem import_first_row_validation :
    ∀ (jsonData : List Row) (r0 : Row) (rest : List Row),
      jsonData.map normalizeRow = r0 :: rest →
      (requiredColumns.filter (fun c => !(hasKey r0 c)) = [] →
          importProcess jsonData = ImportOutcome.inserted (r0 :: rest))
      ∧ (requiredColumns.filter (fun c => !(hasKey r0 c)) ≠ [] →
          importProcess jsonData =
              ImportOutcome.missingColumns (requiredColumns.filter (fun c => !(hasKey r0 c)))
          ∧ insertedRows (importProcess jsonData) = []) := by
  intro jsonData r0 rest hmap
  unfold importProcess
  rw [hmap]
  constructor
  · intro hm
    simp [hm]
  · intro hm
    have hne : (requiredColumns.filter (fun c => !(hasKey r0 c))).isEmpty = false := by
      simpa [List.isEmpty_iff] using hm
    simp [hne, insertedRows]

/-- Import row used by the specification example of a file missing the
case_type column. -/
def sampleRowNoCase : Row :=
  [("first_name", CellValue.str "A"), ("last_name", CellValue.str "B"),
   ("date", CellValue.str "2024-01-01"), ("blotter_entry", CellValue.str "x")]

/-- Witness: a one-row file without a case_type column aborts naming
exactly case_type and inserts zero records. -/
theorem import_first_row_validation_witness :
    importProcess [sampleRowNoCase] = ImportOutcome.missingColumns ["case_type"]
    ∧ insertedRows (importProcess [sampleRowNoCase]) = [] := by
  have h := (import_first_row_validation [sampleRowNoCase]
      (normalizeRow sampleRowNoCase) [] rfl).2 (by decide)
  exact ⟨h.1.trans (by decide), h.2⟩

/-- Claim C10: importing a file whose first worksheet has zero data
rows does not succeed and inserts nothing; the failure is reported as
a file-processing error, not as a missing-columns error. -/
theorem import_empty_sheet :
    importProcess [] = ImportOutcome.processError
    ∧ insertedRows (importProcess []) = [] := by
  exact ⟨rfl, rfl⟩

/-- Blotter entry row as the remote table stores it, with the
server-assigned numeric id. -/
structure Entry where
  id : Int
  first_name : String
  last_name : String
  case_type : String
  date : String
  blotter_entry : String
deriving DecidableEq

/-- Remaining table after the detail-view delete, which fires
delete().eq(id, target): every row whose id equals the target is
removed. -/
def deleteById (table : List Entry) (i : Int) : List Entry :=
  table.filter (fun e => !(e.id == i))

/-- Remaining table after handleDeleteAll fires delete().neq(id, 0):
every row whose id differs from 0 is removed, so exactly the rows with
id 0 remain. -/
def deleteAllRows (table : List Entry) : List Entry :=
  table.filter (fun e => !(e.id != 0))

/-- Entry whose id is 0, a table state on which delete-all does not
empty the table. -/
def zeroIdEntry : Entry :=
  { id := 0, first_name := "Z", last_name := "Q", case_type := "Theft",
    date := "2024-01-01", blotter_entry := "x" }

/-- Entry with the ordinary positive server-assigned id 1. -/
def oneEntry : Entry :=
  { id := 1, first_name := "John", last_name := "Smith", case_type := "Theft",
    date := "2024-01-02", blotter_entry := "narrative one" }

/-- Claim C3 counterexample: on a table holding one row with id 0, the
delete-all operation leaves the table nonempty, refuting that after
delete-all the table is empty for every table state. -/
theorem delete_all_not_universal : deleteAllRows [zeroIdEntry] ≠ [] := by
  decide

/-- Claim C3 amended: deleting by id removes exactly the rows with
that id and no others, and delete-all removes exactly the rows whose
id is nonzero, hence empties every table in which no row has id 0. -/
theorem delete_semantics :
    ∀ (table : List Entry) (i : Int),
      (∀ e : Entry, e ∈ deleteById table i ↔ e ∈ table ∧ e.id ≠ i)
      ∧ (∀ e : Entry, e ∈ deleteAllRows table ↔ e ∈ table ∧ e.id = 0)
      ∧ ((∀ e ∈ table, e.id ≠ 0) → deleteAllRows table = []) := by
  intro table i
  refine ⟨fun e => ?_, fun e => ?_, fun h => ?_⟩
  · simp [deleteById, List.mem_filter]
  · simp [deleteAllRows, List.mem_filter]
  · unfold deleteAllRows
    rw [List.filter_eq_nil_iff]
    intro e he
    simp [h e he]

/-- Witness: on a table whose single row has id 1, delete-all empties
the table. -/
theorem delete_semantics_witness : deleteAllRows [oneEntry] = [] :=
  (delete_semantics [oneEntry] 0).2.2 (by decide)

/-- User-visible transient notification raised by a handler. -/
inductive Toast where
  | success : String → Toast
  | error : String → Toast
  | silent : Toast
deriving DecidableEq

/-- Result of one run of handleDeleteAll: the table afterwards,
whether a delete request was issued at all, and the toast shown. -/
structure DeleteAllRun where
  table : List Entry
  requested : Bool
  toast : Toast
deriving DecidableEq

/-- handleDeleteAll of the settings page: unless the confirmation text
is exactly DELETE it reports an error and returns without issuing any
store call; otherwise it issues the delete request and reports the
server outcome, leaving the table unchanged when the request fails. -/
def handleDeleteAll (deleteConfirmation : String) (table : List Entry)
    (serverOk : Bool) : DeleteAllRun :=
  if deleteConfirmation ≠ "DELETE" then
    { table := table, requested := false,
      toast := Toast.error "Please type DELETE to confirm" }
  else if serverOk then
    { table := deleteAllRows table, requested := true,
      toast := Toast.success "All entries deleted successfully" }
  else
    { table := table, requested := true,
      toast := Toast.error "Error deleting entries" }

/-- Claim C9: for any confirmation text other than DELETE the handler
issues no delete request, leaves the table unchanged, and reports an
error, for every server outcome. -/
theorem delete_all_requires_confirmation :
    ∀ (conf : String) (table : List Entry) (ok : Bool), conf ≠ "DELETE" →
      handleDeleteAll conf table ok =
        { table := table, requested := false,
          toast := Toast.error "Please type DELETE to confirm" } := by
  intro conf table ok h
  simp [handleDeleteAll, h]

/-- Witness: the lowercase confirmation text delete does not trigger
the delete request. -/
theorem delete_all_requires_confirmation_witness :
    handleDeleteAll "delete" [oneEntry] true =
      { table := [oneEntry], requested := false,
        toast := Toast.error "Please type DELETE to confirm" } :=
  delete_all_requires_confirmation "delete" [oneEntry] true (by decide)

/-- Character-list test that the first list is a leading segment of
the second. -/
def chPre : List Char → List Char → Bool
  | [], _ => true
  | _ :: _, [] => false
  | a :: as, b :: bs => a == b && chPre as bs

/-- Character-list test that the first list occurs contiguously inside
the second, the semantics of the JS includes method on strings. -/
def chSub (needle : List Char) : List Char → Bool
  | [] => needle.isEmpty
  | b :: bs => chPre needle (b :: bs) || chSub needle bs

/-- Case-insensitive substring test: both operands lowercased, then a
contiguous-occurrence check, the combination the search code builds
from toLowerCase with includes or ilike. -/
def icontains (hay needle : String) : Bool :=
  chSub (needle.data.map Char.toLower) (hay.data.map Char.toLower)

/-- Missing-session classification of signOut: the lowercased server
error message contains both the word session and the word missing. -/
def isMissingSessionMsg (msg : String) : Bool :=
  icontains msg "session" && icontains msg "missing"

/-- Outcome of the server-side sign-out call: success, a rejected
promise carrying an error message, or a thrown exception. -/
inductive ServerResult where
  | ok : ServerResult
  | err : String → ServerResult
  | thrown : String → ServerResult
deriving DecidableEq

/-- View state the auth provider manages: current user, session,
loading flag, the route navigated to, and the toast shown. -/
structure AuthState where
  user : Option String
  session : Option String
  loading : Bool
  nav : Option String
  toast : Toast
deriving DecidableEq

/-- signOut of the auth context as a function of the starting state
and the server outcome: the local user and session are cleared first;
a thrown exception is swallowed by the catch; an error whose message
names a missing session is suppressed and reported as success; any
other error is reported as an error toast; the finally block always
navigates to the login view and clears the loading flag. -/
def signOutRun (st : AuthState) (r : ServerResult) : AuthState :=
  let st1 : AuthState := { st with user := none, session := none, loading := true }
  let st2 : AuthState :=
    match r with
    | ServerResult.ok => { st1 with toast := Toast.success "Logged out successfully" }
    | ServerResult.err msg =>
        if isMissingSessionMsg msg then
          { st1 with toast := Toast.success "Logged out successfully" }
        else
          { st1 with toast := Toast.error msg }
    | ServerResult.thrown _ => st1
  { st2 with nav := some "/login", loading := false }

/-- Claim C4: sign-out always ends with no local session, no user, and
navigation to the login view, for every server outcome, and a server
error naming a missing session is suppressed and reported to the user
as success. -/
theorem sign_out_always_logs_out :
    ∀ (st : AuthState) (r : ServerResult),
      (signOutRun st r).session = none
      ∧ (signOutRun st r).user = none
      ∧ (signOutRun st r).nav = some "/login"
      ∧ (signOutRun st r).loading = false
      ∧ (∀ msg, r = ServerResult.err msg → isMissingSessionMsg msg = true →
          (signOutRun st r).toast = Toast.success "Logged out successfully") := by
  intro st r
  cases r with
  | ok => exact ⟨rfl, rfl, rfl, rfl, fun msg h => by cases h⟩
  | thrown m => exact ⟨rfl, rfl, rfl, rfl, fun msg h => by cases h⟩
  | err m =>
      by_cases hm : isMissingSessionMsg m = true
      · simp [signOutRun, hm]
      · simp [signOutRun, hm]

/-- Witness: sign-out on the actual missing-session server message
ends logged out on the login view with a success toast. -/
theorem sign_out_always_logs_out_witness :
    (signOutRun
        { user := some "u", session := some "s", loading := false, nav := none,
          toast := Toast.silent }
        (ServerResult.err "Auth session missing!")).session = none
    ∧ (signOutRun
        { user := some "u", session := some "s", loading := false, nav := none,
          toast := Toast.silent }
        (ServerResult.err "Auth session missing!")).toast =
        Toast.success "Logged out successfully" := by
  have h := sign_out_always_logs_out
      { user := some "u", session := some "s", loading := false, nav := none,
        toast := Toast.silent }
      (ServerResult.err "Auth session missing!")
  exact ⟨h.1, h.2.2.2.2 "Auth session missing!" rfl (by decide)⟩

/-- Form data of the entry detail view: every column of the loaded
entry, including the server-assigned id and created_at. -/
structure BlotterForm where
  id : Option Int
  created_at : Option String
  blotter_entry : String
  first_name : String
  last_name : String
  case_type : String
  date : String
deriving DecidableEq

/-- Update payload built by handleUpdate: the destructuring removes
the id and created_at properties from the form data and the rest
spread keeps exactly the five remaining columns. -/
def updatePayload (f : BlotterForm) : List (String × CellValue) :=
  [("blotter_entry", CellValue.str f.blotter_entry),
   ("first_name", CellValue.str f.first_name),
   ("last_name", CellValue.str f.last_name),
   ("case_type", CellValue.str f.case_type),
   ("date", CellValue.str f.date)]

/-- Application of an update payload to a stored row: each payload
column overwrites the row column of the same name. -/
def applyPayload (row : Row) (payload : List (String × CellValue)) : Row :=
  payload.foldl (fun r kv => setKey r kv.1 kv.2) row

/-- Store-level update issued by handleUpdate: the payload is applied
to the rows whose id column matches the update key. -/
def updateTable (table : List Row) (rowId : Int) (f : BlotterForm) : List Row :=
  table.map (fun r =>
    if lookupKey r "id" = some (CellValue.num rowId) then
      applyPayload r (updatePayload f)
    else r)

/-- Reading back the key just assigned returns the assigned value. -/
theorem lookup_setKey_same (r : Row) (k : String) (v : CellValue) :
    lookupKey (setKey r k v) k = some v := by
  induction r with
  | nil => simp [setKey, lookupKey]
  | cons kv rest ih =>
      obtain ⟨k0, v0⟩ := kv
      by_cases h : k0 = k
      · simp [setKey, lookupKey, h]
      · simp [setKey, lookupKey, h, ih]

/-- Assigning one key leaves every other key unchanged. -/
theorem lookup_setKey_other (r : Row) (k k2 : String) (v : CellValue) (h : k2 ≠ k) :
    lookupKey (setKey r k v) k2 = lookupKey r k2 := by
  induction r with
  | nil => simp [setKey, lookupKey, Ne.symm h]
  | cons kv rest ih =>
      obtain ⟨k0, v0⟩ := kv
      by_cases h0 : k0 = k
      · subst h0
        simp [setKey, lookupKey, Ne.symm h]
      · simp [setKey, lookupKey, h0, ih]

/-- Applying a payload that never mentions a key leaves that key
unchanged. -/
theorem lookup_applyPayload_skip (payload : List (String × CellValue)) (k : String)
    (h : ∀ kv ∈ payload, kv.1 ≠ k) :
    ∀ r : Row, lookupKey (applyPayload r payload) k = lookupKey r k := by
  induction payload with
  | nil => intro r; rfl
  | cons kv rest ih =>
      intro r
      have hstep : applyPayload r (kv :: rest) = applyPayload (setKey r kv.1 kv.2) rest := rfl
      rw [hstep, ih (fun kv2 h2 => h kv2 (List.mem_cons_of_mem _ h2)),
        lookup_setKey_other _ _ _ _ (Ne.symm (h kv (List.mem_cons_self _ _)))]

/-- Claim C5: updating an entry excludes id and created_at from the
payload, so the update changes neither column on any stored row even
though the submitted form data carries both, while the five data
columns of the matched rows are overwritten with the submitted
values. -/
theorem update_preserves_id_created_at :
    ∀ (f : BlotterForm) (r : Row),
      lookupKey (applyPayload r (updatePayload f)) "id" = lookupKey r "id"
      ∧ lookupKey (applyPayload r (updatePayload f)) "created_at" = lookupKey r "created_at"
      ∧ lookupKey (applyPayload r (updatePayload f)) "blotter_entry"
          = some (CellValue.str f.blotter_entry)
      ∧ lookupKey (applyPayload r (updatePayload f)) "first_name"
          = some (CellValue.str f.first_name)
      ∧ lookupKey (applyPayload r (updatePayload f)) "last_name"
          = some (CellValue.str f.last_name)
      ∧ lookupKey (applyPayload r (updatePayload f)) "case_type"
          = some (CellValue.str f.case_type)
      ∧ lookupKey (applyPayload r (updatePayload f)) "date"
          = some (CellValue.str f.date)
      ∧ (∀ (table : List Row) (rowId : Int) (i : Nat) (rr : Row),
          table.get? i = some rr →
          ∃ r2, (updateTable table rowId f).get? i = some r2
            ∧ lookupKey r2 "id" = lookupKey rr "id"
            ∧ lookupKey r2 "created_at" = lookupKey rr "created_at") := by
  intro f r
  have hid : ∀ rr : Row,
      lookupKey (applyPayload rr (updatePayload f)) "id" = lookupKey rr "id" := by
    apply lookup_applyPayload_skip
    intro kv hkv
    simp only [updatePayload, List.mem_cons, List.not_mem_nil, or_false] at hkv
    rcases hkv with rfl | rfl | rfl | rfl | rfl <;> simp
  have hca : ∀ rr : Row,
      lookupKey (applyPayload rr (updatePayload f)) "created_at" = lookupKey rr "created_at" := by
    apply lookup_applyPayload_skip
    intro kv hkv
    simp only [updatePayload, List.mem_cons, List.not_mem_nil, or_false] at hkv
    rcases hkv with rfl | rfl | rfl | rfl | rfl <;> simp
  refine ⟨hid r, hca r, ?_, ?_, ?_, ?_, ?_, ?_⟩
  · simp only [applyPayload, updatePayload, List.foldl]
    rw [lookup_setKey_other _ _ _ _ (by decide : ("blotter_entry" : String) ≠ "date"),
        lookup_setKey_other _ _ _ _ (by decide : ("blotter_entry" : String) ≠ "case_type"),
        lookup_setKey_other _ _ _ _ (by decide : ("blotter_entry" : String) ≠ "last_name"),
        lookup_setKey_other _ _ _ _ (by decide : ("blotter_entry" : String) ≠ "first_name"),
        lookup_setKey_same]
  · simp only [applyPayload, updatePayload, List.foldl]
    rw [lookup_setKey_other _ _ _ _ (by decide : ("first_name" : String) ≠ "date"),
        lookup_setKey_other _ _ _ _ (by decide : ("first_name" : String) ≠ "case_type"),
        lookup_setKey_other _ _ _ _ (by decide : ("first_name" : String) ≠ "last_name"),
        lookup_setKey_same]
  · simp only [applyPayload, updatePayload, List.foldl]
    rw [lookup_setKey_other _ _ _ _ (by decide : ("last_name" : String) ≠ "date"),
        lookup_setKey_other _ _ _ _ (by decide : ("last_name" : String) ≠ "case_type"),
        lookup_setKey_same]
  · simp only [applyPayload, updatePayload, List.foldl]
    rw [lookup_setKey_other _ _ _ _ (by decide : ("case_type" : String) ≠ "date"),
        lookup_setKey_same]
  · simp only [applyPayload, updatePayload, List.foldl]
    rw [lookup_setKey_same]
  · intro table rowId i rr hget
    unfold updateTable
    rw [List.get?_map, hget]
    by_cases hc : lookupKey rr "id" = some (CellValue.num rowId)
    · refine ⟨applyPayload rr (updatePayload f), ?_, hid rr, hca rr⟩
      simp [hc]
    · refine ⟨rr, ?_, rfl, rfl⟩
      simp [hc]

/-- Form data loaded from a stored entry and then edited, keeping its
id 7 and creation timestamp in the submitted object. -/
def sampleForm : BlotterForm :=
  { id := some 7, created_at := some "2024-01-01T00:00:00Z",
    blotter_entry := "updated text", first_name := "A", last_name := "B",
    case_type := "Theft", date := "2024-02-02" }

/-- Stored row with id 7 that the sample update targets. -/
def sampleStoredRow : Row :=
  [("id", CellValue.num 7), ("created_at", CellValue.str "2024-01-01T00:00:00Z"),
   ("blotter_entry", CellValue.str "old text"), ("first_name", CellValue.str "X"),
   ("last_name", CellValue.str "Y"), ("case_type", CellValue.str "Robbery"),
   ("date", CellValue.str "2023-01-01")]

/-- Witness: updating the sample row with form data that still carries
id and created_at leaves both columns unchanged. -/
theorem update_preserves_id_created_at_witness :
    lookupKey (applyPayload sampleStoredRow (updatePayload sampleForm)) "id"
      = some (CellValue.num 7)
    ∧ ∃ r2, (updateTable [sampleStoredRow] 7 sampleForm).get? 0 = some r2
        ∧ lookupKey r2 "id" = lookupKey sampleStoredRow "id"
        ∧ lookupKey r2 "created_at" = lookupKey sampleStoredRow "created_at" := by
  have h := update_preserves_id_created_at sampleForm sampleStoredRow
  exact ⟨h.1.trans (by decide), h.2.2.2.2.2.2.2 [sampleStoredRow] 7 0 sampleStoredRow rfl⟩

/-- Fixed page size of the server-side list view. -/
def ROWS_PER_PAGE : Nat := 20

/-- Total page count computed by fetchEntries: the ceiling of the
total matching count divided by the page size. -/
def totalPagesOf (count : Nat) : Nat :=
  (count + ROWS_PER_PAGE - 1) / ROWS_PER_PAGE

/-- Window of the ordered results requested by the range call of
fetchEntries for a page: the inclusive offsets from (page-1)*20
through page*20 - 1, i.e. drop the first (page-1)*20 results and take
the next 20. -/
def pageSlice (l : List Entry) (page : Nat) : List Entry :=
  (l.drop ((page - 1) * ROWS_PER_PAGE)).take ROWS_PER_PAGE

/-- Claim C6: the total page count is the least number of pages of
size 20 covering the matching count, i.e. the ceiling of count / 20;
page p holds exactly the ordered results at offsets (p-1)*20 through
p*20 - 1; 45 matches give 3 pages and page 3 returns exactly 5
records. -/
theorem pagination_fixed_page_size :
    ∀ (n page : Nat) (l : List Entry),
      (n ≤ ROWS_PER_PAGE * totalPagesOf n
        ∧ (∀ k, n ≤ ROWS_PER_PAGE * k → totalPagesOf n ≤ k))
      ∧ (pageSlice l page).length
          = min ROWS_PER_PAGE (l.length - (page - 1) * ROWS_PER_PAGE)
      ∧ (∀ i : Nat, (pageSlice l page).get? i
          = if i < ROWS_PER_PAGE then l.get? ((page - 1) * ROWS_PER_PAGE + i) else none)
      ∧ totalPagesOf 45 = 3
      ∧ (l.length = 45 → (pageSlice l 3).length = 5) := by
  intro n page l
  have hlen : ∀ (l2 : List Entry) (p : Nat),
      (pageSlice l2 p).length = min ROWS_PER_PAGE (l2.length - (p - 1) * ROWS_PER_PAGE) := by
    intro l2 p
    simp [pageSlice]
  refine ⟨⟨?_, ?_⟩, hlen l page, ?_, by decide, ?_⟩
  · show n ≤ 20 * ((n + 20 - 1) / 20)
    omega
  · intro k hk
    show (n + 20 - 1) / 20 ≤ k
    have : n ≤ 20 * k := hk
    omega
  · intro i
    by_cases hi : i < ROWS_PER_PAGE
    · rw [if_pos hi]
      simp [pageSlice, List.get?_take, hi, List.get?_drop]
    · rw [if_neg hi]
      rw [List.get?_eq_none]
      have := hlen l page
      omega
  · intro h45
    rw [hlen l 3, h45]
    decide

/-- Plain entry used to populate concrete tables. -/
def blankEntry : Entry :=
  { id := 2, first_name := "F", last_name := "L", case_type := "T",
    date := "2024-01-05", blotter_entry := "b" }

/-- Witness: 45 matching entries give 3 pages, and page 3 of a
45-entry result list holds exactly 5 records. -/
theorem pagination_fixed_page_size_witness :
    totalPagesOf 45 = 3
    ∧ (pageSlice (List.replicate 45 blankEntry) 3).length = 5 := by
  have h := pagination_fixed_page_size 45 3 (List.replicate 45 blankEntry)
  exact ⟨h.2.2.2.1, h.2.2.2.2 (by simp)⟩

/-- Server-side list filter of fetchEntries: when the first-name
search text is nonempty an ilike filter on first_name is added, and
when the last-name search text is nonempty an ilike filter on
last_name is added; no other column is searched. -/
def serverFilter (fn ln : String) (entries : List Entry) : List Entry :=
  entries.filter (fun e =>
    (fn == "" || icontains e.first_name fn) && (ln == "" || icontains e.last_name ln))

/-- Client-side filter of the in-memory list variant: a nonempty
search text must occur case-insensitively in the first name, last
name, case type, or entry text, and a case-type filter other than all
must match the case type exactly. -/
def clientFilter (searchText caseTypeFilter : String) (entries : List Entry) : List Entry :=
  let f1 := if searchText == "" then entries
    else entries.filter (fun e =>
      icontains e.first_name searchText || icontains e.last_name searchText ||
      icontains e.case_type searchText || icontains e.blotter_entry searchText)
  if caseTypeFilter == "all" then f1
  else f1.filter (fun e => e.case_type == caseTypeFilter)

/-- Entry named Joan Reyes from the specification search example. -/
def joanEntry : Entry :=
  { id := 3, first_name := "Joan", last_name := "Reyes", case_type := "Assault",
    date := "2024-01-03", blotter_entry := "details two" }

/-- Claim C7: the search text jo matches both John Smith and Joan
Reyes case-insensitively; in the server-side variant a text matching
neither name field filters out every entry, even one whose entry text
contains it; and the client-side variant additionally retains entries
matched only on case type or entry text. -/
theorem search_variants :
    serverFilter "jo" "" [oneEntry, joanEntry] = [oneEntry, joanEntry]
    ∧ (∀ (entries : List Entry) (t : String), t ≠ "" →
        (∀ e ∈ entries,
          icontains e.first_name t = false ∧ icontains e.last_name t = false) →
        serverFilter t t entries = [])
    ∧ (∀ (entries : List Entry) (e : Entry) (t : String), t ≠ "" → e ∈ entries →
        (icontains e.case_type t = true ∨ icontains e.blotter_entry t = true) →
        e ∈ clientFilter t "all" entries) := by
  refine ⟨by decide, ?_, ?_⟩
  · intro entries t ht h
    have ht2 : (t == "") = false := by
      simpa using ht
    unfold serverFilter
    rw [List.filter_eq_nil_iff]
    intro e he
    simp [ht2, (h e he).1, (h e he).2]
  · intro entries e t ht he hor
    have ht2 : (t == "") = false := by
      simpa using ht
    simp only [clientFilter, ht2, Bool.false_eq_true, if_false, beq_self_eq_true, if_true]
    rw [List.mem_filter]
    refine ⟨he, ?_⟩
    rcases hor with h | h <;> simp [h]

/-- Witness: an entry whose narrative contains the search text is
dropped by the server-side variant and kept by the client-side
variant. -/
theorem search_variants_witness :
    serverFilter "two" "two" [joanEntry] = []
    ∧ joanEntry ∈ clientFilter "two" "all" [joanEntry] := by
  refine ⟨?_, ?_⟩
  · exact search_variants.2.1 [joanEntry] "two" (by decide)
      (by intro e he; simp at he; subst he; exact ⟨by decide, by decide⟩)
  · exact search_variants.2.2 [joanEntry] joanEntry "two" (by decide)
      (by simp) (Or.inr (by decide))

/-- Reactive state of the server-side list view that the page-reset
effect watches: the two active (debounced) search terms and the
current page. -/
structure ListState where
  debouncedFirstName : String
  debouncedLastName : String
  currentPage : Nat
deriving DecidableEq

/-- Effect of the list view watching the two debounced search terms:
whenever the dependency pair changes between renders the effect body
runs setCurrentPage(1); when the pair is unchanged the effect does
not run and the state is untouched. -/
def onDebouncedChange (st : ListState) (f l : String) : ListState :=
  if f = st.debouncedFirstName ∧ l = st.debouncedLastName then st
  else { debouncedFirstName := f, debouncedLastName := l, currentPage := 1 }

/-- Inclusive offsets of the range request the fetch effect issues
from a list state. -/
def fetchRange (st : ListState) : Nat × Nat :=
  ((st.currentPage - 1) * ROWS_PER_PAGE, st.currentPage * ROWS_PER_PAGE - 1)

/-- Claim C8: every change to the active debounced search terms resets
the current page to 1, so the next fetch requests the first page,
offsets 0 through 19. -/
theorem search_change_resets_page :
    ∀ (st : ListState) (f l : String),
      f ≠ st.debouncedFirstName ∨ l ≠ st.debouncedLastName →
      (onDebouncedChange st f l).currentPage = 1
      ∧ fetchRange (onDebouncedChange st f l) = (0, 19) := by
  intro st f l h
  have hc : ¬ (f = st.debouncedFirstName ∧ l = st.debouncedLastName) := by
    tauto
  unfold onDebouncedChange
  rw [if_neg hc]
  exact ⟨rfl, rfl⟩

/-- Witness: typing a new first-name search term on page 5 resets the
view to page 1 and the next fetch requests offsets 0 through 19. -/
theorem search_change_resets_page_witness :
    (onDebouncedChange
        { debouncedFirstName := "a", debouncedLastName := "b", currentPage := 5 }
        "jo" "b").currentPage = 1
    ∧ fetchRange (onDebouncedChange
        { debouncedFirstName := "a", debouncedLastName := "b", currentPage := 5 }
        "jo" "b") = (0, 19) :=
  search_change_resets_page
    { debouncedFirstName := "a", debouncedLastName := "b", currentPage := 5 }
    "jo" "b" (Or.inl (by decide))
